import Mathlib

/-!
Verification of `src/shared/capture/capture_v4l2.cpp` (class `CaptureV4L2`).

The development shallowly embeds the capture source.  Host/kernel calls
(`open`, `ioctl`, `mmap`, ...) are modelled by behaviour records whose fields
give the result of each call; the embedded functions consume those records
exactly along the control flow of the C++ code.  Kernel-side facts that the
C++ code cannot observe directly (which memory regions are currently mapped,
which buffer indices are enqueued to the device) are tracked as ghost state
alongside the fields of the C++ object (`fd`, `buffers`, `last_buf`).

Types of the repository that are outside `src/` (`RawImage` from image.h,
the VarTypes configuration library, `ColorFormat` from colors.h) are modelled
from the spec; each such definition carries a doc comment saying so.
-/

/-- Modelled from the spec: the `ColorFormat` enumeration of colors.h (not
under src/).  Only the constants used by capture_v4l2.cpp appear, plus the
undefined default. -/
inductive ColorFormat
  | COLOR_YUV422_YUYV
  | COLOR_YUV422_UYVY
  | COLOR_RGB8
  | COLOR_UNDEFINED
deriving DecidableEq, Repr

/-- Timestamps are C doubles in the source; the code under verification only
copies them (`target.setTime(src.getTime())`), so they are modelled as an
opaque scalar. -/
abbrev Timestamp := Int

/-- Modelled from the spec: `RawImage` of image.h (not under src/), the facet
used by `copyAndConvertFrame`: dimensions, color format, timestamp and the
pixel byte buffer.  `data = none` models a null data pointer. -/
structure RawImage where
  width : Nat
  height : Nat
  colorFormat : ColorFormat
  time : Timestamp
  data : Option (List Nat)
deriving DecidableEq, Repr

/-- Modelled from the spec: bytes per pixel of each color format, as used by
`RawImage::allocate` to size the pixel buffer (16-bit packed YUV variants use
2 bytes per pixel, RGB8 uses 3). -/
def pixelSize : ColorFormat → Nat
  | ColorFormat.COLOR_YUV422_YUYV => 2
  | ColorFormat.COLOR_YUV422_UYVY => 2
  | ColorFormat.COLOR_RGB8 => 3
  | ColorFormat.COLOR_UNDEFINED => 0

/-- Modelled from the spec: `RawImage::allocate` (image.h, not under src/):
sets format and dimensions and allocates a pixel buffer of the matching byte
size (initial contents are irrelevant to every claim; zero is used). -/
def RawImage.allocate (img : RawImage) (fmt : ColorFormat) (w h : Nat) : RawImage :=
  { img with width := w, height := h, colorFormat := fmt,
             data := some (List.replicate (w * h * pixelSize fmt) 0) }

/-- Modelled from the spec: `RawImage::ensure_allocation` (image.h, not under
src/): reallocates only when format or dimensions differ ("allocate or resize
dst to match src dimensions/target format"). -/
def RawImage.ensure_allocation (img : RawImage) (fmt : ColorFormat) (w h : Nat) : RawImage :=
  if img.colorFormat = fmt ∧ img.width = w ∧ img.height = h then img
  else img.allocate fmt w h

/-- Size invariant of `RawImage`: a non-null data buffer has the byte length
`RawImage::allocate` gave it for the current format and dimensions. -/
def RawImage.sizeInv (img : RawImage) : Prop :=
  ∀ l, img.data = some l → l.length = img.width * img.height * pixelSize img.colorFormat

/-- The conversion loop of `CaptureV4L2::copyAndConvertFrame`
(capture_v4l2.cpp lines 429-433):

    for (int i = 0; i < n; i += 2) { td[i] = sd[i+1]; td[i+1] = sd[i]; }

`fuel` counts remaining iterations (the caller passes `n`, which bounds the
number of iterations of the `i += 2` loop); the `i < n` test is the loop
condition. -/
def convertLoop (sd : List Nat) (n : Nat) : Nat → Nat → List Nat → List Nat
  | 0, _, td => td
  | fuel + 1, i, td =>
    if i < n then
      convertLoop sd n fuel (i + 2) ((td.set i (sd.getD (i + 1) 0)).set (i + 1) (sd.getD i 0))
    else td

/-- The allocation prologue of `CaptureV4L2::copyAndConvertFrame`
(capture_v4l2.cpp lines 401-407): allocate the target if its data pointer is
null, otherwise ensure_allocation, then copy the source timestamp. -/
def resizeTarget (output_fmt : ColorFormat) (src target : RawImage) : RawImage :=
  let t1 := if target.data = none then target.allocate output_fmt src.width src.height
            else target.ensure_allocation output_fmt src.width src.height
  { t1 with time := src.time }

/-- `CaptureV4L2::copyAndConvertFrame` (capture_v4l2.cpp lines 392-449).
`output_fmt` stands for `Colors::stringToColorFormat(v_colorout->getSelection())`
(the selected output format).  The function is total: the C++ code reports the
unrecognized-pair case by returning false, never by throwing. -/
def copyAndConvertFrame (output_fmt : ColorFormat) (src target : RawImage) :
    Bool × RawImage :=
  let t2 := resizeTarget output_fmt src target
  if src.colorFormat = ColorFormat.COLOR_YUV422_YUYV ∧
     output_fmt = ColorFormat.COLOR_YUV422_UYVY then
    let n := src.width * src.height * 2
    (true, { t2 with
               data := some (convertLoop (src.data.getD []) n n 0 (t2.data.getD [])),
               colorFormat := ColorFormat.COLOR_YUV422_UYVY })
  else
    (false, t2)

theorem getD_set_self {α : Type} (l : List α) (i : Nat) (a d : α) (h : i < l.length) :
    (l.set i a).getD i d = a := by
  simp [List.getD_eq_getElem?_getD, List.getElem?_set, h]

theorem getD_set_of_ne {α : Type} (l : List α) (i j : Nat) (a d : α) (h : i ≠ j) :
    (l.set i a).getD j d = l.getD j d := by
  simp [List.getD_eq_getElem?_getD, List.getElem?_set, h]

theorem convertLoop_length (sd : List Nat) (n : Nat) :
    ∀ (fuel i : Nat) (td : List Nat), (convertLoop sd n fuel i td).length = td.length := by
  intro fuel
  induction fuel with
  | zero => intro i td; rfl
  | succ fuel ih =>
    intro i td
    rw [convertLoop]
    split
    · rw [ih]; simp [List.length_set]
    · rfl

theorem convertLoop_frozen (sd : List Nat) (n : Nat) :
    ∀ (fuel i : Nat) (td : List Nat) (j : Nat), j < i →
      (convertLoop sd n fuel i td).getD j 0 = td.getD j 0 := by
  intro fuel
  induction fuel with
  | zero => intro i td j _; rfl
  | succ fuel ih =>
    intro i td j hj
    rw [convertLoop]
    split
    · rw [ih (i + 2) _ j (by omega)]
      rw [getD_set_of_ne _ _ _ _ _ (by omega), getD_set_of_ne _ _ _ _ _ (by omega)]
    · rfl

theorem convertLoop_swaps (sd : List Nat) (n : Nat) (hn : 2 ∣ n) :
    ∀ (fuel i : Nat) (td : List Nat), 2 ∣ i → n ≤ i + 2 * fuel → td.length = n →
    ∀ j, 2 ∣ j → i ≤ j → j < n →
      (convertLoop sd n fuel i td).getD j 0 = sd.getD (j + 1) 0 ∧
      (convertLoop sd n fuel i td).getD (j + 1) 0 = sd.getD j 0 := by
  intro fuel
  induction fuel with
  | zero =>
    intro i td _ hfe _ j _ hij hjn
    omega
  | succ fuel ih =>
    intro i td hi hfe hlen j hj hij hjn
    rw [convertLoop]
    split
    · rcases Nat.lt_or_ge j (i + 2) with hcase | hcase
      · have hji : j = i := by omega
        subst hji
        have h1 : j < n := hjn
        have h2 : j + 1 < n := by omega
        constructor
        · rw [convertLoop_frozen sd n fuel (j + 2) _ j (by omega)]
          rw [getD_set_of_ne _ _ _ _ _ (by omega)]
          exact getD_set_self _ _ _ _ (by omega)
        · rw [convertLoop_frozen sd n fuel (j + 2) _ (j + 1) (by omega)]
          exact getD_set_self _ _ _ _ (by simp [List.length_set]; omega)
      · exact ih (i + 2) _ (by omega) (by omega)
          (by simp [List.length_set, hlen]) j hj (by omega) hjn
    · omega

theorem resizeTarget_fields (output_fmt : ColorFormat) (src target : RawImage) :
    (resizeTarget output_fmt src target).width = src.width ∧
    (resizeTarget output_fmt src target).height = src.height ∧
    (resizeTarget output_fmt src target).colorFormat = output_fmt ∧
    (resizeTarget output_fmt src target).time = src.time := by
  unfold resizeTarget RawImage.ensure_allocation RawImage.allocate
  split
  · simp
  · split
    · rename_i hcond
      simp [hcond.1, hcond.2.1, hcond.2.2]
    · simp

theorem resizeTarget_data_length (output_fmt : ColorFormat) (src target : RawImage)
    (hinv : RawImage.sizeInv target) :
    ∃ l, (resizeTarget output_fmt src target).data = some l ∧
      l.length = src.width * src.height * pixelSize output_fmt := by
  unfold resizeTarget RawImage.ensure_allocation RawImage.allocate
  split
  · exact ⟨_, rfl, by simp⟩
  · rename_i hne
    split
    · rename_i hcond
      rcases htd : target.data with _ | l
      · exact absurd htd hne
      · refine ⟨l, by simp [htd], ?_⟩
        rw [hinv l htd, hcond.1, hcond.2.1, hcond.2.2]
    · exact ⟨_, rfl, by simp⟩

/-- Result of a successful `VIDIOC_DQBUF`: the dequeued buffer index and the
capture timestamp the driver reported (the C++ code combines
`tv_sec + tv_usec * 1e-6` into a double; the combined value is treated as
opaque here). -/
structure DqbufResult where
  index : Nat
  timestamp : Timestamp
deriving DecidableEq, Repr

/-- The lifecycle facet of a `buffers` element (a `RawImage` as used by
`startCapture`/`cleanup`/`getFrame`): the data pointer is an address.
`dataPtr = 0` is the null pointer of a default-constructed `RawImage`;
`dataPtr = -1` is the value `(unsigned char *)MAP_FAILED`. -/
structure BufImage where
  width : Nat
  height : Nat
  colorFormat : ColorFormat
  time : Timestamp
  dataPtr : Int
deriving DecidableEq, Repr

/-- Modelled from the spec: a default-constructed `RawImage` (image.h, not
under src/) has zero dimensions, no recognized color format and a null data
pointer. -/
instance : Inhabited BufImage :=
  ⟨{ width := 0, height := 0, colorFormat := ColorFormat.COLOR_UNDEFINED,
     time := 0, dataPtr := 0 }⟩

/-- State of a `CaptureV4L2` object together with the ghost kernel state.

Object fields of the C++ class: `fd` (-1 when closed), `buffers`
(the `vector<RawImage>`), `lastBuf` (`last_buf`; `none` models the
still-uninitialized struct before the first successful `VIDIOC_DQBUF`) and
`deviceReadonly` (the VARTYPE_FLAG_READONLY flag on the "Device" entry).

Ghost kernel state: `mappings` is the list of live memory mappings as
(address, byte length) pairs -- `mmap` adds one, `munmap` with the matching
address and length removes it; `deviceQueue` is the list of buffer indices
currently enqueued to the device (`VIDIOC_QBUF` appends,
`VIDIOC_DQBUF` removes). -/
structure CaptureState where
  fd : Int
  buffers : List BufImage
  mappings : List (Int × Nat)
  deviceQueue : List Nat
  lastBuf : Option DqbufResult
  deviceReadonly : Bool
deriving DecidableEq, Repr

/-- The state established by the constructor: `fd = -1`, no buffers, nothing
mapped or enqueued. -/
def initState : CaptureState :=
  { fd := -1, buffers := [], mappings := [], deviceQueue := [],
    lastBuf := none, deviceReadonly := false }

/-- The fourcc code `V4L2_PIX_FMT_YUYV`. -/
def V4L2_PIX_FMT_YUYV : Nat := 0x56595559

/-- Outcomes of every host call a single `startCapture` run makes, in program
order.  Per-buffer calls are indexed by the buffer index.  `mmapRes i = none`
means the mapping could not be established (POSIX `mmap` then returns
`MAP_FAILED`, i.e. `(void *)-1`); `some a` means a mapping at address `a` was
created.  `timeperframeSupported` and `sParmOk` have no effect on the modelled
state because the C++ code only logs in those branches. -/
structure StartBehavior where
  openFd : Int
  sFmtOk : Bool
  fmtWidth : Nat
  fmtHeight : Nat
  fmtPixelformat : Nat
  gParmOk : Bool
  timeperframeSupported : Bool
  sParmOk : Bool
  reqbufsOk : Bool
  reqbufsCount : Nat
  querybufLen : Nat → Option Nat
  mmapRes : Nat → Option Nat
  qbufOk : Nat → Bool
  streamonOk : Bool

/-- Effect of `close(fd); fd = -1;` on the modelled state: the handle is
closed and invalidated.  Note that closing does not release memory mappings
(the comment in `CaptureV4L2::cleanup` records this), so `mappings` is
untouched. -/
def closeFd (s : CaptureState) : CaptureState := { s with fd := -1 }

/-- The per-buffer loop of `CaptureV4L2::startCapture` (lines 255-294) and the
`VIDIOC_STREAMON` that follows it (lines 297-304).  `fuel` is the number of
iterations left (`req.count` at the top); `i` is the loop counter.  Each
iteration: `VIDIOC_QUERYBUF`, `mmap` (ghost mapping recorded when the host
call succeeds), the `data == 0` failure check exactly as written in the
source, field updates on `buffers[i]`, then `VIDIOC_QBUF`.  Every failure
branch executes `close(fd); fd = -1; return false;` and nothing else. -/
def startLoop (b : StartBehavior) (color : ColorFormat) :
    Nat → Nat → CaptureState → Bool × CaptureState
  | 0, _, s =>
    if b.streamonOk then (true, { s with deviceReadonly := true })
    else (false, closeFd s)
  | fuel + 1, i, s =>
    match b.querybufLen i with
    | none => (false, closeFd s)
    | some len =>
      let data : Int := match b.mmapRes i with
                        | none => -1
                        | some a => (a : Int)
      let s1 := match b.mmapRes i with
                | none => s
                | some a => { s with mappings := s.mappings ++ [((a : Int), len)] }
      if data = 0 then (false, closeFd s1)
      else
        let old := s1.buffers.getD i default
        let new := { old with width := b.fmtWidth, height := b.fmtHeight,
                              colorFormat := color, dataPtr := data }
        let s2 := { s1 with buffers := s1.buffers.set i new }
        if b.qbufOk i then
          startLoop b color fuel (i + 1) { s2 with deviceQueue := s2.deviceQueue ++ [i] }
        else (false, closeFd s2)

/-- `CaptureV4L2::startCapture` (capture_v4l2.cpp lines 156-310).
Sequence of the source: `open`; `populateConfiguration` (touches only the
control configuration, modelled separately -- it does not change `fd`,
`buffers` or the ghost kernel state); `VIDIOC_S_FMT` (the driver returns the
actual format `fmtWidth`/`fmtHeight`/`fmtPixelformat`, which the code reads
back); `VIDIOC_G_PARM`; the framerate branch (log-only); the pixel-format
switch (only `V4L2_PIX_FMT_YUYV` is recognized); `VIDIOC_REQBUFS` requesting
2 buffers (the driver grants `reqbufsCount`); `buffers.clear();
buffers.resize(req.count)`; the per-buffer loop; `VIDIOC_STREAMON`; and on
success the "Device" entry becomes read-only. -/
def startCapture (s : CaptureState) (b : StartBehavior) : Bool × CaptureState :=
  let s0 := { s with fd := b.openFd }
  if s0.fd < 0 then (false, s0)
  else if !b.sFmtOk then (false, closeFd s0)
  else if !b.gParmOk then (false, closeFd s0)
  else if b.fmtPixelformat ≠ V4L2_PIX_FMT_YUYV then (false, closeFd s0)
  else if !b.reqbufsOk then (false, closeFd s0)
  else
    let s1 := { s0 with buffers := List.replicate b.reqbufsCount default }
    startLoop b ColorFormat.COLOR_YUV422_YUYV b.reqbufsCount 0 s1

/-- `CaptureV4L2::isCapturing` (lines 322-325): `fd >= 0`. -/
def isCapturing (s : CaptureState) : Bool := decide (0 ≤ s.fd)

/-- Outcomes of the host calls one `cleanup` run makes: `VIDIOC_STREAMOFF`
(log-only on failure) and the per-buffer `VIDIOC_QUERYBUF` re-query
(`none` = failed, `some len` = the driver-reported length). -/
structure CleanupBehavior where
  streamoffOk : Bool
  querybuf : Nat → Option Nat

/-- The unmap loop of `CaptureV4L2::cleanup` (lines 345-357): for each buffer
index, re-query the driver-reported length and, only if the query succeeds,
`munmap(buffers[i].getData(), buf.length)`.  The ghost effect of `munmap` is
to drop the mapping whose address and length match.  `fuel` is the number of
iterations left (`buffers.size()` at the top). -/
def unmapLoop (qb : Nat → Option Nat) (bufs : List BufImage) :
    Nat → Nat → List (Int × Nat) → List (Int × Nat)
  | 0, _, maps => maps
  | fuel + 1, i, maps =>
    match qb i with
    | none => unmapLoop qb bufs fuel (i + 1) maps
    | some len =>
      unmapLoop qb bufs fuel (i + 1)
        (maps.filter (fun m => !(m.1 == (bufs.getD i default).dataPtr && m.2 == len)))

/-- `CaptureV4L2::cleanup` (lines 327-369): when `fd >= 0`, stream off
(failure only logged), run the unmap loop, clear `buffers`, close the device;
in every case `fd = -1` at the end. -/
def cleanup (s : CaptureState) (cb : CleanupBehavior) : CaptureState :=
  if 0 ≤ s.fd then
    let maps := unmapLoop cb.querybuf s.buffers s.buffers.length 0 s.mappings
    { s with mappings := maps, buffers := [], fd := -1 }
  else { s with fd := -1 }

/-- `CaptureV4L2::stopCapture` (lines 312-320): `cleanup()`, make the "Device"
entry read-write again, return true unconditionally. -/
def stopCapture (s : CaptureState) (cb : CleanupBehavior) : Bool × CaptureState :=
  (true, { cleanup s cb with deviceReadonly := false })

/-- `CaptureV4L2::getFrame` (lines 371-390).  `dq = none` models a failing
`VIDIOC_DQBUF`: the code logs and returns a default-constructed `RawImage`.
On success the dequeued index and timestamp are stored in `last_buf`, the
ghost queue drops the index, `buffers[last_buf.index].setTime(...)` runs and
`buffers[last_buf.index]` is returned. -/
def getFrame (s : CaptureState) (dq : Option DqbufResult) : BufImage × CaptureState :=
  match dq with
  | none => (default, s)
  | some r =>
    let bufs := s.buffers.set r.index
      { s.buffers.getD r.index default with time := r.timestamp }
    let s1 := { s with buffers := bufs, lastBuf := some r,
                       deviceQueue := s.deviceQueue.erase r.index }
    (bufs.getD r.index default, s1)

/-- `CaptureV4L2::releaseFrame` (lines 451-461): unconditionally issues
`VIDIOC_QBUF` with whatever `last_buf` holds; a failure is only logged.  No
check for an outstanding frame exists.  When `last_buf` was never written
(`lastBuf = none`) the ioctl receives indeterminate bytes; that call is
modelled as having no tracked effect. -/
def releaseFrame (s : CaptureState) (qbufOk : Bool) : CaptureState :=
  match s.lastBuf with
  | some r => if qbufOk then { s with deviceQueue := s.deviceQueue ++ [r.index] } else s
  | none => s

/-- The `v4l2_ctrl_type` of a queried control, as far as capture_v4l2.cpp
distinguishes them: `V4L2_CTRL_TYPE_INTEGER`, `V4L2_CTRL_TYPE_BOOLEAN`, and
everything else (skipped by the code). -/
inductive CtrlType
  | integer
  | boolean
  | other
deriving DecidableEq, Repr

/-- The `v4l2_queryctrl` result for one enumerated control: identifier, name,
type, bounds and default value as reported by `VIDIOC_QUERYCTRL`. -/
structure QueryCtrl where
  id : Nat
  name : String
  ctrlType : CtrlType
  minimum : Int
  maximum : Int
  default_value : Int
deriving DecidableEq, Repr

/-- Modelled from the spec: a VarTypes configuration entry value (VarTypes is
a library of this repository that is not under src/).  Only the two kinds
capture_v4l2.cpp handles are modelled: `varInt` is a `VarInt` carrying value
and bounds, `varBool` is a `VarBool`.  A `dynamic_cast<VarInt *>` succeeding
corresponds to matching `varInt`. -/
inductive VarCtrl
  | varInt (value min max : Int)
  | varBool (value : Bool)
deriving DecidableEq, Repr

/-- State of the control configuration: the children of `v_controls` (entries
are identified by name, which is how `findChild` looks them up), the
`camera_controls` binding from entry to control id, and the ghost list of
`VIDIOC_S_CTRL` calls (id, value) the device has received. -/
structure ControlState where
  controls : List (String × VarCtrl)
  camera_controls : List (String × Nat)
  setCalls : List (Nat × Int)
deriving DecidableEq, Repr

/-- Map-insert semantics of `camera_controls[c] = qctrl.id` (std::map
operator[]): overwrite the binding if present, append otherwise. -/
def bindCtrl (cc : List (String × Nat)) (n : String) (id : Nat) : List (String × Nat) :=
  if cc.any (fun p => p.1 == n) then cc.map (fun p => if p.1 == n then (n, id) else p)
  else cc ++ [(n, id)]

/-- Lookup of `camera_controls[var]` inside `controlChanged`; std::map
operator[] value-initializes (0) a missing key. -/
def lookupId (cc : List (String × Nat)) (n : String) : Nat :=
  match cc.find? (fun p => p.1 == n) with
  | some p => p.2
  | none => 0

/-- `CaptureV4L2::controlChanged` (capture_v4l2.cpp lines 132-154): look up
the bound control id, extract the integer value (`VarBool` as 0/1, `VarInt`
as its value; any other dynamic type returns without doing anything), and
issue `VIDIOC_S_CTRL` -- a failing ioctl is only logged, so the call is
recorded unconditionally.  The C++ function receives the entry object;
entries being identified by name here, it receives the entry name and reads
the current entry state. -/
def controlChanged (st : ControlState) (entryName : String) : ControlState :=
  let id := lookupId st.camera_controls entryName
  match st.controls.find? (fun p => p.1 == entryName) with
  | some (_, VarCtrl.varBool b) =>
      { st with setCalls := st.setCalls ++ [(id, if b then 1 else 0)] }
  | some (_, VarCtrl.varInt v _ _) =>
      { st with setCalls := st.setCalls ++ [(id, v)] }
  | none => st

/-- Body of the `VIDIOC_QUERYCTRL` enumeration loop of
`CaptureV4L2::populateConfiguration` (capture_v4l2.cpp lines 71-129) for one
control.  If `findChild` finds an entry with the control's name: bind it,
and when both the control and the entry are integer-typed refresh the entry's
min/max from the driver-reported bounds (the loaded value is kept), then
`controlChanged` pushes the entry's current value to the device, and the
binding assignment at line 124 runs again.  Otherwise a new entry is created
from the driver default (integer and boolean types only) and bound; no
`controlChanged` call is made for a new entry.  The Qt signal connection has
no modelled effect. -/
def processQueryCtrl (st : ControlState) (q : QueryCtrl) : ControlState :=
  match st.controls.find? (fun p => p.1 == q.name) with
  | some (_, c) =>
    let st1 := { st with camera_controls := bindCtrl st.camera_controls q.name q.id }
    let st2 :=
      match q.ctrlType, c with
      | CtrlType.integer, VarCtrl.varInt v _ _ =>
        let fixed := st1.controls.map
          (fun p => if p.1 == q.name then (p.1, VarCtrl.varInt v q.minimum q.maximum) else p)
        { st1 with controls := fixed }
      | _, _ => st1
    let st3 := controlChanged st2 q.name
    { st3 with camera_controls := bindCtrl st3.camera_controls q.name q.id }
  | none =>
    let newCtrl : Option VarCtrl :=
      match q.ctrlType with
      | CtrlType.integer => some (VarCtrl.varInt q.default_value q.minimum q.maximum)
      | CtrlType.boolean => some (VarCtrl.varBool (q.default_value ≠ 0))
      | CtrlType.other => none
    match newCtrl with
    | some c => { st with controls := st.controls ++ [(q.name, c)],
                          camera_controls := bindCtrl st.camera_controls q.name q.id }
    | none => st

/-- The control-enumeration loop of `CaptureV4L2::populateConfiguration`
(lines 69-129): the device enumerates its controls in order (the
`V4L2_CTRL_FLAG_NEXT_CTRL` protocol); each is processed in turn.  The format
enumeration printf loop of lines 59-66 has no state effect. -/
def populateConfiguration (st : ControlState) : List QueryCtrl → ControlState
  | [] => st
  | q :: rest => populateConfiguration (processQueryCtrl st q) rest

/-- A `v_controls` list holding a single integer entry, as restored from a
saved configuration. -/
def singleIntEntry (n : String) (v mn mx : Int) : ControlState :=
  { controls := [(n, VarCtrl.varInt v mn mx)], camera_controls := [], setCalls := [] }

/-- A device on which every host call of `startCapture` succeeds: the driver
echoes the requested 640x480 YUYV format, grants the 2 requested buffers of
614400 bytes (640*480*2) and the two mmaps land at addresses 4096 and 8192. -/
def bAllOk : StartBehavior :=
  { openFd := 3, sFmtOk := true, fmtWidth := 640, fmtHeight := 480,
    fmtPixelformat := V4L2_PIX_FMT_YUYV, gParmOk := true,
    timeperframeSupported := true, sParmOk := true,
    reqbufsOk := true, reqbufsCount := 2,
    querybufLen := fun _ => some 614400,
    mmapRes := fun i => if i = 0 then some 4096 else some 8192,
    qbufOk := fun _ => true, streamonOk := true }

/-- Same device as `bAllOk` except that every `VIDIOC_QBUF` fails, so the
first enqueue attempt (buffer 0, after its successful mmap) aborts
`startCapture`. -/
def bQbufFail : StartBehavior :=
  { bAllOk with qbufOk := fun _ => false }

/-- Same device as `bAllOk` except that the mapping of buffer 0 cannot be
established: `mmap` returns `MAP_FAILED`. -/
def bMmapFail0 : StartBehavior :=
  { bAllOk with mmapRes := fun i => if i = 0 then none else some 8192 }

/-- Same device as `bAllOk` except that the mapping of buffer 1 cannot be
established: `mmap` returns `MAP_FAILED`. -/
def bMmapFail1 : StartBehavior :=
  { bAllOk with mmapRes := fun i => if i = 0 then some 4096 else none }

/-- C1.  The claim says every failure of session setup after open unwinds
fully back to Closed: handle closed and invalidated, every buffer mapped so
far unmapped, no populated buffer table entry left.  The code diverges: when
`VIDIOC_QBUF` fails for buffer 0 right after its successful mmap,
`startCapture` only runs `close(fd); fd = -1; return false;` -- the mapping
made for buffer 0 stays live (nothing is ever munmapped on these paths) and
`buffers[0]` keeps the mapped data pointer.  This theorem evaluates the
embedded code at that failing input. -/
theorem startCapture_qbuf_failure_leaves_mapping_live :
    (startCapture initState bQbufFail).1 = false ∧
    (startCapture initState bQbufFail).2.fd = -1 ∧
    (startCapture initState bQbufFail).2.mappings = [(4096, 614400)] ∧
    ((startCapture initState bQbufFail).2.buffers.getD 0 default).dataPtr = 4096 ∧
    (startCapture initState bQbufFail).2.buffers.length = 2 := by
  decide

/-- C2.  The claim says a buffer whose mapping cannot be established makes
`startCapture` detect the failure and return false.  The code diverges: POSIX
`mmap` reports failure with `MAP_FAILED` (`(void *)-1`), never 0, but the
code tests `data == 0`; the failed mapping is therefore not detected,
`(unsigned char *)-1` is recorded as the buffer's data pointer via `setData`,
and `startCapture` returns true.  This theorem evaluates the embedded code at
that failing input. -/
theorem startCapture_mmap_failure_not_detected :
    (startCapture initState bMmapFail0).1 = true ∧
    ((startCapture initState bMmapFail0).2.buffers.getD 0 default).dataPtr = -1 := by
  decide

/-- C4.  The claim says that after `startCapture` succeeds every buffer of
the pool is mapped (besides being enqueued and the session streaming).  The
code diverges through the same wrong `data == 0` check as C2: with `mmap`
failing for buffer 1 and every ioctl succeeding, `startCapture` returns true,
`isCapturing` is true, both buffers exist and are enqueued -- but buffer 1's
data pointer is the `MAP_FAILED` sentinel and no live mapping backs it. -/
theorem startCapture_success_with_unmapped_buffer :
    (startCapture initState bMmapFail1).1 = true ∧
    isCapturing (startCapture initState bMmapFail1).2 = true ∧
    (startCapture initState bMmapFail1).2.buffers.length = 2 ∧
    (startCapture initState bMmapFail1).2.deviceQueue = [0, 1] ∧
    ((startCapture initState bMmapFail1).2.buffers.getD 1 default).dataPtr = -1 ∧
    (startCapture initState bMmapFail1).2.mappings = [(4096, 614400)] := by
  decide

/-- The state right after a fully successful `startCapture` on `bAllOk`. -/
def streamingState : CaptureState := (startCapture initState bAllOk).2

/-- First `getFrame` on the streaming session: the device hands out buffer 0. -/
def acquire1 : BufImage × CaptureState :=
  getFrame streamingState (some { index := 0, timestamp := 10 })

/-- Second `getFrame` with no intervening `releaseFrame`: the device hands
out buffer 1. -/
def acquire2 : BufImage × CaptureState :=
  getFrame acquire1.2 (some { index := 1, timestamp := 20 })

/-- C3 counterexample.  The claim says a second `getFrame` without an
intervening `releaseFrame` fails with `FrameAlreadyOutstanding`.  On the
embedded code both calls succeed: each returns the corresponding mapped
buffer (not the default-constructed image that signals a `VIDIOC_DQBUF`
failure), and after the second call both buffers are outstanding at once
(the device queue is empty).  No outstanding-frame check exists anywhere in
`getFrame` or `releaseFrame`. -/
theorem getFrame_double_acquire_succeeds :
    acquire1.1.dataPtr = 4096 ∧
    acquire2.1.dataPtr = 8192 ∧
    acquire2.1 ≠ (default : BufImage) ∧
    acquire2.2.deviceQueue = [] := by
  decide

/-- Cleanup behaviour on which the `VIDIOC_QUERYBUF` re-query fails for
buffer 0 and succeeds for buffer 1. -/
def cbQueryFail : CleanupBehavior :=
  { streamoffOk := true, querybuf := fun i => if i = 0 then none else some 614400 }

/-- Cleanup behaviour on which every `VIDIOC_QUERYBUF` re-query succeeds with
the original length. -/
def cbAllOk : CleanupBehavior :=
  { streamoffOk := true, querybuf := fun _ => some 614400 }

/-- C5 counterexample.  The claim says that after stopping a streaming
session every buffer is unmapped.  The code diverges when the cleanup-time
`VIDIOC_QUERYBUF` re-query fails for a buffer: `munmap` is skipped for it, so
buffer 0's mapping (address 4096) survives `cleanup`, even though the buffer
table is emptied and the handle is closed. -/
theorem cleanup_requery_failure_leaves_mapping :
    (startCapture initState bAllOk).1 = true ∧
    (cleanup streamingState cbQueryFail).buffers = [] ∧
    (cleanup streamingState cbQueryFail).fd = -1 ∧
    (cleanup streamingState cbQueryFail).mappings = [(4096, 614400)] := by
  decide

/-- C3 amended.  The frame exchange enforces no protocol: a second `getFrame`
without an intervening `releaseFrame` simply performs another dequeue and,
whenever the device hands out a completed buffer, succeeds -- it returns that
buffer's image (same data pointer, timestamp freshly stamped) regardless of
the first frame still being outstanding; and `releaseFrame` performs no
outstanding-frame check at all (with a never-written `last_buf` it has no
tracked effect and reports nothing).  No `FrameAlreadyOutstanding` or
`NoOutstandingFrame` error exists. -/
theorem frame_exchange_unenforced (s : CaptureState) (r1 r2 : DqbufResult)
    (h : r2.index < s.buffers.length) :
    ((getFrame (getFrame s (some r1)).2 (some r2)).1).time = r2.timestamp ∧
    ((getFrame (getFrame s (some r1)).2 (some r2)).1).dataPtr =
      (s.buffers.getD r2.index default).dataPtr ∧
    ∀ (t : CaptureState) (q : Bool), t.lastBuf = none → releaseFrame t q = t := by
  simp only [getFrame]
  have hlen : (s.buffers.set r1.index
      { s.buffers.getD r1.index default with time := r1.timestamp }).length
      = s.buffers.length := List.length_set _ _ _
  refine ⟨?_, ?_, ?_⟩
  · rw [getD_set_self _ _ _ _ (by rw [hlen]; exact h)]
  · rw [getD_set_self _ _ _ _ (by rw [hlen]; exact h)]
    show ((s.buffers.set r1.index
        { s.buffers.getD r1.index default with time := r1.timestamp }).getD
          r2.index default).dataPtr
      = (s.buffers.getD r2.index default).dataPtr
    by_cases hij : r1.index = r2.index
    · rw [← hij, getD_set_self _ _ _ _ (by rw [hij]; exact h)]
    · rw [getD_set_of_ne _ _ _ _ _ hij]
  · intro t q ht
    simp [releaseFrame, ht]

/-- Witness for `frame_exchange_unenforced`: on the concrete streaming
session, dequeuing buffer 0 and then buffer 1 without releasing. -/
theorem frame_exchange_unenforced_witness :
    (1 < streamingState.buffers.length) ∧
    ((getFrame (getFrame streamingState (some { index := 0, timestamp := 10 })).2
        (some { index := 1, timestamp := 20 })).1).time = 20 ∧
    ((getFrame (getFrame streamingState (some { index := 0, timestamp := 10 })).2
        (some { index := 1, timestamp := 20 })).1).dataPtr =
      (streamingState.buffers.getD 1 default).dataPtr ∧
    releaseFrame initState true = initState := by
  have h := frame_exchange_unenforced streamingState
    { index := 0, timestamp := 10 } { index := 1, timestamp := 20 } (by decide)
  exact ⟨by decide, h.1, h.2.1, h.2.2 initState true rfl⟩

theorem unmapLoop_subset (qb : Nat → Option Nat) (bufs : List BufImage) :
    ∀ (fuel i : Nat) (maps : List (Int × Nat)) (m : Int × Nat),
      m ∈ unmapLoop qb bufs fuel i maps → m ∈ maps := by
  intro fuel
  induction fuel with
  | zero => intro i maps m hm; exact hm
  | succ fuel ih =>
    intro i maps m hm
    rw [unmapLoop] at hm
    rcases hqb : qb i with _ | len <;> rw [hqb] at hm
    · exact ih _ _ _ hm
    · exact (List.mem_filter.mp (ih _ _ _ hm)).1

theorem unmapLoop_removes (qb : Nat → Option Nat) (bufs : List BufImage) :
    ∀ (fuel i : Nat) (maps : List (Int × Nat)) (k : Nat) (len : Nat),
      i ≤ k → k < i + fuel → qb k = some len →
      ((bufs.getD k default).dataPtr, len) ∉ unmapLoop qb bufs fuel i maps := by
  intro fuel
  induction fuel with
  | zero => intro i maps k len h1 h2 _; omega
  | succ fuel ih =>
    intro i maps k len h1 h2 hqk
    by_cases hk : k = i
    · subst hk
      rw [unmapLoop, hqk]
      intro hmem
      have hsub := unmapLoop_subset qb bufs fuel (k + 1) _ _ hmem
      have hpred := (List.mem_filter.mp hsub).2
      simp at hpred
    · rw [unmapLoop]
      rcases hqi : qb i with _ | l
      · exact ih (i + 1) maps k len (by omega) (by omega) hqk
      · exact ih (i + 1) _ k len (by omega) (by omega) hqk

/-- C5 amended.  After `cleanup` on an open session the handle is closed and
invalidated, the buffer table is emptied (so no mapped region stays reachable
through the pool), and every buffer whose cleanup-time `VIDIOC_QUERYBUF`
re-query succeeds is unmapped with the re-queried driver-reported length; a
buffer whose re-query fails is skipped and stays mapped (see the C5
counterexample). -/
theorem cleanup_unmaps_and_empties (s : CaptureState) (cb : CleanupBehavior)
    (hfd : 0 ≤ s.fd) :
    (cleanup s cb).fd = -1 ∧ (cleanup s cb).buffers = [] ∧
    ∀ i len, i < s.buffers.length → cb.querybuf i = some len →
      ((s.buffers.getD i default).dataPtr, len) ∉ (cleanup s cb).mappings := by
  unfold cleanup
  rw [if_pos hfd]
  refine ⟨rfl, rfl, ?_⟩
  intro i len hi hq
  exact unmapLoop_removes cb.querybuf s.buffers s.buffers.length 0 s.mappings i len
    (Nat.zero_le i) (by omega) hq

/-- Witness for `cleanup_unmaps_and_empties`: the concrete streaming session
cleaned up with every re-query succeeding; buffer 0's mapping is gone. -/
theorem cleanup_unmaps_and_empties_witness :
    ((0 : Int) ≤ streamingState.fd ∧ 0 < streamingState.buffers.length ∧
      cbAllOk.querybuf 0 = some 614400) ∧
    (cleanup streamingState cbAllOk).fd = -1 ∧
    (cleanup streamingState cbAllOk).buffers = [] ∧
    ((streamingState.buffers.getD 0 default).dataPtr, 614400) ∉
      (cleanup streamingState cbAllOk).mappings := by
  have h := cleanup_unmaps_and_empties streamingState cbAllOk (by decide)
  exact ⟨⟨by decide, by decide, rfl⟩, h.1, h.2.1, h.2.2 0 614400 (by decide) rfl⟩

/-- C8.  `stopCapture` is idempotent: on an already-Closed session (invalid
handle, empty buffer table, device entry writable) it is a no-op that leaves
the state unchanged and still returns true; and for every state,
`stopCapture` after `stopCapture` equals the single `stopCapture`. -/
theorem stopCapture_idempotent (s t : CaptureState) (cb cb1 cb2 : CleanupBehavior)
    (hfd : s.fd = -1) (hbuf : s.buffers = []) (hro : s.deviceReadonly = false) :
    stopCapture s cb = (true, s) ∧
    stopCapture (stopCapture t cb1).2 cb2 = stopCapture t cb1 := by
  constructor
  · rcases s with ⟨fd, bufs, maps, dq, lb, ro⟩
    simp only at hfd hro
    subst hfd hro
    simp [stopCapture, cleanup]
  · rcases t with ⟨fd, bufs, maps, dq, lb, ro⟩
    simp only [stopCapture, cleanup]
    by_cases hf : (0 : Int) ≤ fd <;> simp [hf]

/-- Witness for `stopCapture_idempotent` at the constructor state and a
streaming state. -/
theorem stopCapture_idempotent_witness :
    (initState.fd = -1 ∧ initState.buffers = [] ∧ initState.deviceReadonly = false) ∧
    stopCapture initState cbAllOk = (true, initState) ∧
    stopCapture (stopCapture streamingState cbAllOk).2 cbQueryFail =
      stopCapture streamingState cbAllOk := by
  have h := stopCapture_idempotent initState streamingState cbAllOk cbAllOk cbQueryFail
    rfl rfl rfl
  exact ⟨⟨rfl, rfl, rfl⟩, h.1, h.2⟩

/-- C6.  For a source frame in `COLOR_YUV422_YUYV` with the output selection
`COLOR_YUV422_UYVY`, `copyAndConvertFrame` swaps adjacent bytes pairwise over
the full pixel buffer: for every even `i < 2 * width * height` the produced
data has `target[i] = src[i + 1]` and `target[i + 1] = src[i]`. -/
theorem copyAndConvertFrame_swaps_bytes (src target : RawImage) (sd : List Nat)
    (hfmt : src.colorFormat = ColorFormat.COLOR_YUV422_YUYV)
    (hsd : src.data = some sd)
    (hlen : sd.length = src.width * src.height * 2)
    (hinv : RawImage.sizeInv target)
    (i : Nat) (hi : 2 ∣ i) (hilt : i < src.width * src.height * 2) :
    ∃ td, (copyAndConvertFrame ColorFormat.COLOR_YUV422_UYVY src target).2.data = some td ∧
      td.getD i 0 = sd.getD (i + 1) 0 ∧ td.getD (i + 1) 0 = sd.getD i 0 := by
  obtain ⟨l, hl, hllen⟩ :=
    resizeTarget_data_length ColorFormat.COLOR_YUV422_UYVY src target hinv
  unfold copyAndConvertFrame
  rw [if_pos ⟨hfmt, rfl⟩]
  refine ⟨_, rfl, ?_⟩
  rw [hsd, hl]
  have hn : (2 : Nat) ∣ src.width * src.height * 2 := ⟨src.width * src.height, by ring⟩
  have hl2 : l.length = src.width * src.height * 2 := by
    rw [hllen]; rfl
  exact convertLoop_swaps sd (src.width * src.height * 2) hn
    (src.width * src.height * 2) 0 l ⟨0, rfl⟩ (by omega) hl2 i hi (Nat.zero_le i) hilt

/-- A YUYV source frame holding the bytes 0x01 0x02 0x03 0x04 (one pixel
pair, width 2, height 1). -/
def srcBytes : RawImage :=
  { width := 2, height := 1, colorFormat := ColorFormat.COLOR_YUV422_YUYV,
    time := 0, data := some [1, 2, 3, 4] }

/-- A YUYV source frame of all-zero bytes (width 2, height 1). -/
def srcZero : RawImage :=
  { width := 2, height := 1, colorFormat := ColorFormat.COLOR_YUV422_YUYV,
    time := 0, data := some [0, 0, 0, 0] }

/-- A target frame with a null data pointer. -/
def emptyTarget : RawImage :=
  { width := 0, height := 0, colorFormat := ColorFormat.COLOR_UNDEFINED,
    time := 0, data := none }

/-- Witness for `copyAndConvertFrame_swaps_bytes`, realizing the claim's
concrete cases: the buffer 0x01 0x02 0x03 0x04 converts to
0x02 0x01 0x04 0x03 and the all-zero buffer converts to all zeros. -/
theorem copyAndConvertFrame_swaps_bytes_witness :
    (srcBytes.colorFormat = ColorFormat.COLOR_YUV422_YUYV ∧
      srcBytes.data = some [1, 2, 3, 4] ∧
      ([1, 2, 3, 4] : List Nat).length = srcBytes.width * srcBytes.height * 2 ∧
      (2 : Nat) ∣ 0 ∧ 0 < srcBytes.width * srcBytes.height * 2) ∧
    (∃ td,
      (copyAndConvertFrame ColorFormat.COLOR_YUV422_UYVY srcBytes emptyTarget).2.data
        = some td ∧
      td.getD 0 0 = ([1, 2, 3, 4] : List Nat).getD 1 0 ∧
      td.getD 1 0 = ([1, 2, 3, 4] : List Nat).getD 0 0) ∧
    (copyAndConvertFrame ColorFormat.COLOR_YUV422_UYVY srcBytes emptyTarget).2.data
      = some [2, 1, 4, 3] ∧
    (copyAndConvertFrame ColorFormat.COLOR_YUV422_UYVY srcZero emptyTarget).2.data
      = some [0, 0, 0, 0] := by
  refine ⟨by decide, ?_, by decide, by decide⟩
  exact copyAndConvertFrame_swaps_bytes srcBytes emptyTarget [1, 2, 3, 4] rfl rfl
    (by decide) (fun l hl => nomatch hl) 0 ⟨0, rfl⟩ (by decide)

/-- C9.  For every call, `copyAndConvertFrame` resizes the target to the
source's dimensions with the selected output format and copies the source's
timestamp onto the target; and for every (source format, output selection)
pair other than (YUYV, UYVY) it reports failure by returning false (the
embedded function is total -- the C++ code never throws, it prints and
returns false). -/
theorem copyAndConvertFrame_contract (output_fmt : ColorFormat) (src target : RawImage) :
    (¬(src.colorFormat = ColorFormat.COLOR_YUV422_YUYV ∧
        output_fmt = ColorFormat.COLOR_YUV422_UYVY) →
      (copyAndConvertFrame output_fmt src target).1 = false) ∧
    (copyAndConvertFrame output_fmt src target).2.width = src.width ∧
    (copyAndConvertFrame output_fmt src target).2.height = src.height ∧
    (copyAndConvertFrame output_fmt src target).2.colorFormat = output_fmt ∧
    (copyAndConvertFrame output_fmt src target).2.time = src.time := by
  obtain ⟨hw, hh, hf, ht⟩ := resizeTarget_fields output_fmt src target
  unfold copyAndConvertFrame
  split
  · rename_i hcond
    exact ⟨fun hc => absurd hcond hc, hw, hh, by rw [hcond.2], ht⟩
  · exact ⟨fun _ => rfl, hw, hh, hf, ht⟩

/-- Witness for `copyAndConvertFrame_contract`: converting a YUYV source with
the RGB8 output selected fails with false and still resizes and timestamps
the target. -/
theorem copyAndConvertFrame_contract_witness :
    ¬(srcBytes.colorFormat = ColorFormat.COLOR_YUV422_YUYV ∧
        ColorFormat.COLOR_RGB8 = ColorFormat.COLOR_YUV422_UYVY) ∧
    (copyAndConvertFrame ColorFormat.COLOR_RGB8 srcBytes emptyTarget).1 = false ∧
    (copyAndConvertFrame ColorFormat.COLOR_RGB8 srcBytes emptyTarget).2.width
      = srcBytes.width ∧
    (copyAndConvertFrame ColorFormat.COLOR_RGB8 srcBytes emptyTarget).2.height
      = srcBytes.height ∧
    (copyAndConvertFrame ColorFormat.COLOR_RGB8 srcBytes emptyTarget).2.colorFormat
      = ColorFormat.COLOR_RGB8 ∧
    (copyAndConvertFrame ColorFormat.COLOR_RGB8 srcBytes emptyTarget).2.time
      = srcBytes.time := by
  have h := copyAndConvertFrame_contract ColorFormat.COLOR_RGB8 srcBytes emptyTarget
  exact ⟨by decide, h.1 (by decide), h.2.1, h.2.2.1, h.2.2.2.1, h.2.2.2.2⟩

/-- C10.  Even when `copyAndConvertFrame` returns false the target has
already been mutated before failure is reported: the result equals the
resized-and-timestamped target (source dimensions, selected output format,
source timestamp); and there are concrete inputs where the false-returning
call leaves the target different from what was passed in. -/
theorem copyAndConvertFrame_false_still_mutates (output_fmt : ColorFormat)
    (src target : RawImage)
    (hfail : (copyAndConvertFrame output_fmt src target).1 = false) :
    (copyAndConvertFrame output_fmt src target).2 = resizeTarget output_fmt src target ∧
    (copyAndConvertFrame output_fmt src target).2.width = src.width ∧
    (copyAndConvertFrame output_fmt src target).2.height = src.height ∧
    (copyAndConvertFrame output_fmt src target).2.colorFormat = output_fmt ∧
    (copyAndConvertFrame output_fmt src target).2.time = src.time ∧
    ∃ o s0 t0, (copyAndConvertFrame o s0 t0).1 = false ∧
      (copyAndConvertFrame o s0 t0).2 ≠ t0 := by
  obtain ⟨hw, hh, hf, ht⟩ := resizeTarget_fields output_fmt src target
  have heq : (copyAndConvertFrame output_fmt src target).2
      = resizeTarget output_fmt src target := by
    unfold copyAndConvertFrame at hfail ⊢
    split <;> rename_i hcond
    · rw [if_pos hcond] at hfail
      exact absurd hfail (by simp)
    · rfl
  refine ⟨heq, ?_, ?_, ?_, ?_,
    ColorFormat.COLOR_RGB8, srcBytes, emptyTarget, by decide, by decide⟩
  · rw [heq]; exact hw
  · rw [heq]; exact hh
  · rw [heq]; exact hf
  · rw [heq]; exact ht

/-- Witness for `copyAndConvertFrame_false_still_mutates` at the concrete
failing conversion (YUYV source, RGB8 output). -/
theorem copyAndConvertFrame_false_still_mutates_witness :
    (copyAndConvertFrame ColorFormat.COLOR_RGB8 srcZero emptyTarget).1 = false ∧
    ((copyAndConvertFrame ColorFormat.COLOR_RGB8 srcZero emptyTarget).2
        = resizeTarget ColorFormat.COLOR_RGB8 srcZero emptyTarget ∧
      (copyAndConvertFrame ColorFormat.COLOR_RGB8 srcZero emptyTarget).2.width
        = srcZero.width ∧
      (copyAndConvertFrame ColorFormat.COLOR_RGB8 srcZero emptyTarget).2.height
        = srcZero.height ∧
      (copyAndConvertFrame ColorFormat.COLOR_RGB8 srcZero emptyTarget).2.colorFormat
        = ColorFormat.COLOR_RGB8 ∧
      (copyAndConvertFrame ColorFormat.COLOR_RGB8 srcZero emptyTarget).2.time
        = srcZero.time ∧
      ∃ o s0 t0, (copyAndConvertFrame o s0 t0).1 = false ∧
        (copyAndConvertFrame o s0 t0).2 ≠ t0) := by
  exact ⟨by decide,
    copyAndConvertFrame_false_still_mutates ColorFormat.COLOR_RGB8 srcZero emptyTarget
      (by decide)⟩

/-- C7.  For an integer device control whose name matches a pre-existing
integer configuration entry (value `v`, stale bounds), `populateConfiguration`
rebinds the entry to the control id, refreshes the entry's bounds to the
device-reported minimum and maximum while keeping the loaded value `v`, and
pushes `v` (not the device default) to the device with a `VIDIOC_S_CTRL`
call. -/
theorem populateConfiguration_rebinds (q : QueryCtrl) (v mn mx : Int)
    (hint : q.ctrlType = CtrlType.integer) :
    (populateConfiguration (singleIntEntry q.name v mn mx) [q]).controls
      = [(q.name, VarCtrl.varInt v q.minimum q.maximum)] ∧
    (populateConfiguration (singleIntEntry q.name v mn mx) [q]).setCalls
      = [(q.id, v)] ∧
    (populateConfiguration (singleIntEntry q.name v mn mx) [q]).camera_controls
      = [(q.name, q.id)] := by
  simp [populateConfiguration, processQueryCtrl, singleIntEntry, hint,
    controlChanged, bindCtrl, lookupId]

/-- Witness for `populateConfiguration_rebinds`: the claim's scenario -- an
entry "Brightness" loaded with value 50 and stale bounds 0..100, a device
reporting control "Brightness" (id `V4L2_CID_BRIGHTNESS` = 9963776) with
bounds 0..255 and default 128; the entry ends with bounds 0..255 and value
50, and the device receives the set call (9963776, 50), not the default. -/
def brightnessCtrl : QueryCtrl :=
  { id := 9963776, name := "Brightness", ctrlType := CtrlType.integer,
    minimum := 0, maximum := 255, default_value := 128 }

theorem populateConfiguration_rebinds_witness :
    brightnessCtrl.ctrlType = CtrlType.integer ∧
    (populateConfiguration (singleIntEntry "Brightness" 50 0 100) [brightnessCtrl]).controls
      = [("Brightness", VarCtrl.varInt 50 0 255)] ∧
    (populateConfiguration (singleIntEntry "Brightness" 50 0 100) [brightnessCtrl]).setCalls
      = [(9963776, 50)] ∧
    (populateConfiguration (singleIntEntry "Brightness" 50 0 100) [brightnessCtrl]).camera_controls
      = [("Brightness", 9963776)] := by
  have h := populateConfiguration_rebinds brightnessCtrl 50 0 100 rfl
  exact ⟨rfl, h.1, h.2.1, h.2.2⟩
